import Mathlib

/-!
Verification of the test-execution orchestrator of the Codu repository.

The embedding models the two TypeScript sources:
* `src/client/src/App.tsx` — the `parseResult` classifier and the `runCode`
  orchestration loop;
* `src/unnamed/part_000` — an earlier variant of the same component with the
  classification branch chain inlined in its `runCode`.

JavaScript optional string fields are modelled as `Option String`; JavaScript
truthiness of such a field (`undefined`/`null`/`""` are falsy) is the
`truthy` predicate below.
-/

namespace Codu

/-- A test case: `{ input: string, expectedOutput: string }`. -/
structure TestCase where
  input : String
  expectedOutput : String
deriving Repr, DecidableEq, Inhabited

/-- A test suite: harness code plus ordered test cases
(`interface TestSuite \x7b testCode; testCases \x7d`). -/
structure TestSuite where
  testCode : String
  testCases : List TestCase
deriving Repr, DecidableEq, Inhabited

/-- The raw judging-service payload (`interface Judge0Response`), all fields
optional. -/
structure Judge0Response where
  stdout : Option String := none
  stderr : Option String := none
  compile_output : Option String := none
  time : Option String := none
  memory : Option Int := none
deriving Repr, DecidableEq, Inhabited

/-- The status tag of a `TestResult`. -/
inductive Status where
  | passed
  | failed
  | running
deriving Repr, DecidableEq, Inhabited

/-- A per-test result (`interface TestResult`); optional fields that a branch
does not set stay `none`, mirroring absent object properties. -/
structure TestResult where
  testNumber : Nat
  status : Status
  message : String
  input : Option String := none
  expected : Option String := none
  actual : Option String := none
  time : Option String := none
  memory : Option Int := none
  error : Option String := none
deriving Repr, DecidableEq, Inhabited

/-- JavaScript truthiness of an optional string: `undefined`, `null` and the
empty string are falsy, every other string truthy. -/
def truthy : Option String → Bool
  | none => false
  | some s => s ≠ ""

/-- The ECMAScript WhiteSpace / LineTerminator characters removed by
`String.prototype.trim` (the ASCII ones plus NBSP and ZWNBSP). -/
def jsWhitespace (c : Char) : Bool :=
  c = ' ' || c = '\t' || c = '\n' || c = '\r' ||
    c = '\u000b' || c = '\u000c' || c = '\u00a0' || c = '\ufeff'

/-- `String.prototype.trim`: remove leading and trailing whitespace, leaving
interior characters untouched. -/
def jsTrim (s : String) : String :=
  String.mk (((s.data.dropWhile jsWhitespace).reverse.dropWhile jsWhitespace).reverse)

/-- `parseResult` from `src/client/src/App.tsx` (lines 40–68): the pure
classifier mapping a raw response and a test case to a `TestResult`. -/
def parseResult (result : Judge0Response) (testCase : TestCase) (index : Nat) :
    TestResult :=
  let testNumber := index + 1
  if truthy result.stdout && jsTrim (result.stdout.getD "") == testCase.expectedOutput then
    { testNumber := testNumber
      status := .passed
      message := "Test Case " ++ toString testNumber ++ " Passed"
      input := some testCase.input
      expected := some testCase.expectedOutput
      actual := some (jsTrim (result.stdout.getD ""))
      time := result.time
      memory := result.memory }
  else if truthy result.stderr then
    { testNumber := testNumber
      status := .failed
      message := "Test Case " ++ toString testNumber ++ " Failed - Runtime Error"
      error := result.stderr }
  else if truthy result.compile_output then
    { testNumber := testNumber
      status := .failed
      message := "Test Case " ++ toString testNumber ++ " Failed - Compilation Error"
      error := result.compile_output }
  else
    { testNumber := testNumber
      status := .failed
      message := "Test Case " ++ toString testNumber ++ " Failed - Wrong Answer"
      input := some testCase.input
      expected := some testCase.expectedOutput
      actual := some (if truthy result.stdout then jsTrim (result.stdout.getD "") else "No output") }

/-- The inlined classification branch chain of `runCode` in
`src/unnamed/part_000` (lines 150–184), extracted as a function of the same
inputs. -/
def classifyInline (result : Judge0Response) (testCase : TestCase) (i : Nat) :
    TestResult :=
  if truthy result.stdout && jsTrim (result.stdout.getD "") == testCase.expectedOutput then
    { testNumber := i + 1
      status := .passed
      message := "Test Case " ++ toString (i + 1) ++ " Passed"
      input := some testCase.input
      expected := some testCase.expectedOutput
      actual := some (jsTrim (result.stdout.getD ""))
      time := result.time
      memory := result.memory }
  else if truthy result.stderr then
    { testNumber := i + 1
      status := .failed
      message := "Test Case " ++ toString (i + 1) ++ " Failed - Runtime Error"
      error := result.stderr }
  else if truthy result.compile_output then
    { testNumber := i + 1
      status := .failed
      message := "Test Case " ++ toString (i + 1) ++ " Failed - Compilation Error"
      error := result.compile_output }
  else
    { testNumber := i + 1
      status := .failed
      message := "Test Case " ++ toString (i + 1) ++ " Failed - Wrong Answer"
      input := some testCase.input
      expected := some testCase.expectedOutput
      actual := some (if truthy result.stdout then jsTrim (result.stdout.getD "") else "No output") }

/-- The supported languages of the app (`type Language`). -/
inductive Language where
  | python
  | javascript
  | cpp
deriving Repr, DecidableEq, Inhabited

/-- `LANGUAGE_IDS` of `src/client/src/App.tsx` (lines 28–32): the fixed
language-to-numeric-id table sent to the judging service. -/
def languageIds : Language → Nat
  | .python => 71
  | .javascript => 63
  | .cpp => 54

/-- One HTTP submission body posted to the judging service:
`\x7b language_id, source_code, stdin \x7d`. -/
structure SubmissionRequest where
  language_id : Nat
  source_code : String
  stdin : String
deriving Repr, DecidableEq, Inhabited

/-- The outcome of one `axios.post` call: either the response payload, or a
transport failure carrying the thrown error's `message`. -/
inductive SubmitOutcome where
  | ok (resp : Judge0Response)
  | err (message : String)
deriving Repr, DecidableEq, Inhabited

/-- The `catch` branch of the loop in `src/client/src/App.tsx` (lines
131–138): the synthesized api-error result for index `i`. -/
def apiErrorResult (i : Nat) (msg : String) : TestResult :=
  { testNumber := i + 1
    status := .failed
    message := "Test Case " ++ toString (i + 1) ++ " Failed - API Error"
    error := some msg }

/-- One loop iteration's resolved value for slot `i`: classify the response
on success, synthesize the api-error result on transport failure. -/
def resolve (oracle : Nat → SubmitOutcome) (i : Nat) (tc : TestCase) : TestResult :=
  match oracle i with
  | .ok resp => parseResult resp tc i
  | .err m => apiErrorResult i m

/-- The initial slot published before the loop (`status: running`,
`message: Running...`). -/
def runningSlot (i : Nat) : TestResult :=
  { testNumber := i + 1, status := .running, message := "Running..." }

/-- The trailing placeholder slots of an incremental snapshot:
`cases.slice(start).map((_, idx) => (\x7b testNumber: start + idx + 1,
status: running, message: Waiting... \x7d))` for the `n - start` unresolved
test cases. -/
def waitingSlots (start n : Nat) : List TestResult :=
  (List.range (n - start)).map fun idx =>
    { testNumber := start + idx + 1, status := .running, message := "Waiting..." }

/-- The output of one iteration suffix of the sequential loop: the requests
posted, the snapshots published by `setResults`, and the accumulated
`newResults` at the end. -/
structure LoopOut where
  requests : List SubmissionRequest
  snaps : List (List TestResult)
  final : List TestResult
deriving Repr, DecidableEq, Inhabited

/-- The `for` loop of `runCode` in `src/client/src/App.tsx` (lines 110–146),
as a recursion over the remaining test cases `rest`, where `i` is the current
index, `n` the total number of test cases and `acc` the `newResults`
accumulated so far.  Each iteration posts one request, resolves slot `i`
(classification or api-error), and publishes
`[...newResults, ...waiting slots]`. -/
def runLoop (oracle : Nat → SubmitOutcome) (lid : Nat) (fullCode : String)
    (n : Nat) : Nat → List TestCase → List TestResult → LoopOut
  | _, [], acc => { requests := [], snaps := [], final := acc }
  | i, tc :: rest, acc =>
    let res := resolve oracle i tc
    let acc2 := acc ++ [res]
    let out := runLoop oracle lid fullCode n (i + 1) rest acc2
    { requests := { language_id := lid, source_code := fullCode, stdin := tc.input } :: out.requests
      snaps := (acc2 ++ waitingSlots (i + 1) n) :: out.snaps
      final := out.final }

/-- Observable effects of one `runCode` call: whether the no-test-suite alert
fired, the `setIsRunning` calls, the requests posted, every `setResults`
snapshot in order, and the fully resolved result list (`none` when the run
aborted before touching result state). -/
structure RunOutcome where
  alerted : Bool
  setRunningCalls : List Bool
  submissions : List SubmissionRequest
  snapshots : List (List TestResult)
  finalResults : Option (List TestResult)
deriving Repr, DecidableEq, Inhabited

/-- `runCode` of `src/client/src/App.tsx` (lines 93–149): guard on a missing
test suite, build `fullCode` once, publish the initial all-running snapshot,
then drive the sequential loop.  The per-index submission outcome is supplied
by `oracle`, abstracting the remote judging service. -/
def runCode (oracle : Nat → SubmitOutcome) (language : Language) (code : String)
    (testSuite : Option TestSuite) : RunOutcome :=
  match testSuite with
  | none =>
    { alerted := true, setRunningCalls := [], submissions := [], snapshots := []
      finalResults := none }
  | some ts =>
    let fullCode := code ++ "\n" ++ ts.testCode
    let cases := ts.testCases
    let n := cases.length
    let snap0 := (List.range n).map runningSlot
    let out := runLoop oracle (languageIds language) fullCode n 0 cases []
    { alerted := false
      setRunningCalls := [true, false]
      submissions := out.requests
      snapshots := snap0 :: out.snaps
      finalResults := some out.final }

/-- The list of resolved results of one run: slot `i + k` holds the resolved
value of the iteration handling test case `k` of `rest`. -/
def resolveList (oracle : Nat → SubmitOutcome) : Nat → List TestCase → List TestResult
  | _, [] => []
  | i, tc :: rest => resolve oracle i tc :: resolveList oracle (i + 1) rest

def oW : Nat → SubmitOutcome
  | 0 => .err "network down"
  | _ => .ok { stdout := some "0\n" }

def tsW : TestSuite :=
  { testCode := "H", testCases := [⟨"2 3", "5"⟩, ⟨"0 0", "0"⟩] }

lemma parseResult_pos (resp : Judge0Response) (tc : TestCase) (i : Nat) (s : String)
    (h : resp.stdout = some s) (hne : s ≠ "") (ht : jsTrim s = tc.expectedOutput) :
    parseResult resp tc i =
      { testNumber := i + 1, status := .passed,
        message := "Test Case " ++ toString (i + 1) ++ " Passed",
        input := some tc.input, expected := some tc.expectedOutput,
        actual := some (jsTrim s), time := resp.time, memory := resp.memory } := by
  simp only [parseResult]
  rw [h]
  simp [truthy, hne, ht]

lemma parseResult_status_of_not_pass (resp : Judge0Response) (tc : TestCase) (i : Nat)
    (h : ∀ s, resp.stdout = some s → s = "" ∨ jsTrim s ≠ tc.expectedOutput) :
    (parseResult resp tc i).status = .failed := by
  have hc : (truthy resp.stdout && (jsTrim (resp.stdout.getD "") == tc.expectedOutput)) = false := by
    cases hs : resp.stdout with
    | none => simp [truthy]
    | some s =>
      rcases h s hs with h0 | h1
      · subst h0; simp [truthy]
      · simp [truthy, h1]
  simp only [parseResult]
  rw [hc]
  simp only [Bool.false_eq_true, if_false]
  split
  · rfl
  · split <;> rfl

lemma parseResult_passed_iff (resp : Judge0Response) (tc : TestCase) (i : Nat) :
    (parseResult resp tc i).status = .passed ↔
      ∃ s, resp.stdout = some s ∧ s ≠ "" ∧ jsTrim s = tc.expectedOutput := by
  constructor
  · intro hp
    by_contra hn
    push_neg at hn
    have h : ∀ s, resp.stdout = some s → s = "" ∨ jsTrim s ≠ tc.expectedOutput := by
      intro s hs
      by_cases he : s = ""
      · exact Or.inl he
      · exact Or.inr (hn s hs he)
    rw [parseResult_status_of_not_pass resp tc i h] at hp
    exact absurd hp (by decide)
  · rintro ⟨s, hs, hne, ht⟩
    rw [parseResult_pos resp tc i s hs hne ht]

/-- C1: classification precedence — for any response whose trimmed stdout does
not equal the expected output and whose stderr is non-empty, `parseResult`
yields the runtime-error failure (error = stderr, no input/expected/actual),
never the wrong-answer result, regardless of `compile_output`. -/
theorem runtime_error_beats_wrong_answer (resp : Judge0Response) (tc : TestCase) (i : Nat)
    (hstdout : ∀ s, resp.stdout = some s → jsTrim s ≠ tc.expectedOutput)
    (hstderr : truthy resp.stderr = true) :
    parseResult resp tc i =
      { testNumber := i + 1, status := .failed,
        message := "Test Case " ++ toString (i + 1) ++ " Failed - Runtime Error",
        error := resp.stderr } := by
  have hc : (truthy resp.stdout && (jsTrim (resp.stdout.getD "") == tc.expectedOutput)) = false := by
    cases hs : resp.stdout with
    | none => simp [truthy]
    | some s => simp [truthy, hstdout s hs]
  simp only [parseResult]
  rw [hc]
  simp [hstderr]

/-- Witness for C1 at a concrete input with non-matching stdout, non-empty
stderr and non-empty compile output. -/
theorem runtime_error_beats_wrong_answer_witness :
    parseResult { stdout := some "X", stderr := some "boom", compile_output := some "cc" }
      { input := "in", expectedOutput := "Y" } 0 =
      { testNumber := 1, status := .failed,
        message := "Test Case 1 Failed - Runtime Error", error := some "boom" } :=
  runtime_error_beats_wrong_answer _ _ 0
    (fun s hs => by injection hs with h; subst h; decide) (by decide)

/-- C2: a result is `passed` iff stdout is present, non-empty, and trims to
exactly the expected output; a passed result carries the trimmed stdout as
actual, the expected value, the input, and time/memory; stdout " 42\n" vs
expected "42" passes while stdout "42 " vs expected "4 2" is a wrong answer. -/
theorem passed_iff_trimmed_stdout_matches (resp : Judge0Response) (tc : TestCase) (i : Nat) :
    ((parseResult resp tc i).status = .passed ↔
      ∃ s, resp.stdout = some s ∧ s ≠ "" ∧ jsTrim s = tc.expectedOutput) ∧
    (∀ s, resp.stdout = some s → s ≠ "" → jsTrim s = tc.expectedOutput →
      parseResult resp tc i =
        { testNumber := i + 1, status := .passed,
          message := "Test Case " ++ toString (i + 1) ++ " Passed",
          input := some tc.input, expected := some tc.expectedOutput,
          actual := some (jsTrim s), time := resp.time, memory := resp.memory }) ∧
    (parseResult { stdout := some " 42\n" } { input := tc.input, expectedOutput := "42" } i).status
      = .passed ∧
    parseResult { stdout := some "42 " } { input := tc.input, expectedOutput := "4 2" } i =
      { testNumber := i + 1, status := .failed,
        message := "Test Case " ++ toString (i + 1) ++ " Failed - Wrong Answer",
        input := some tc.input, expected := some "4 2", actual := some "42" } := by
  refine ⟨parseResult_passed_iff resp tc i,
    fun s hs hne ht => parseResult_pos resp tc i s hs hne ht, ?_, ?_⟩
  · rw [parseResult_pos { stdout := some " 42\n" } { input := tc.input, expectedOutput := "42" } i
      " 42\n" rfl (by decide) (by show jsTrim " 42\n" = "42"; decide)]
  · have hc : (truthy (some "42 ") && (jsTrim ((some "42 " : Option String).getD "") == ("4 2" : String))) = false := by
      decide
    simp only [parseResult]
    rw [hc]
    simp only [Bool.false_eq_true, if_false, truthy]
    norm_num
    decide

/-- Witness for C2: the iff direction applied at the spec's trim-sensitivity
example. -/
theorem passed_iff_trimmed_stdout_matches_witness :
    (parseResult { stdout := some " 42\n" } { input := "1 41", expectedOutput := "42" } 0).status
      = .passed :=
  (passed_iff_trimmed_stdout_matches { stdout := some " 42\n" }
      { input := "1 41", expectedOutput := "42" } 0).1.mpr ⟨" 42\n", rfl, by decide, by decide⟩

/-- C8: the `parseResult` helper of `src/client/src/App.tsx` and the inlined
classification branch chain of `src/unnamed/part_000` agree on every field for
every response, test case and index. -/
theorem parseResult_eq_classifyInline (resp : Judge0Response) (tc : TestCase) (i : Nat) :
    parseResult resp tc i = classifyInline resp tc i := rfl

/-- C9: an empty-string stdout (with falsy stderr and compile output) always
classifies as wrong answer with actual = "No output", for every expected
output — including the empty one — so it can never pass. -/
theorem empty_stdout_is_no_output (resp : Judge0Response) (tc : TestCase) (i : Nat)
    (hs : resp.stdout = some "") (he : truthy resp.stderr = false)
    (hc : truthy resp.compile_output = false) :
    parseResult resp tc i =
      { testNumber := i + 1, status := .failed,
        message := "Test Case " ++ toString (i + 1) ++ " Failed - Wrong Answer",
        input := some tc.input, expected := some tc.expectedOutput,
        actual := some "No output" } := by
  have h1 : (truthy resp.stdout && (jsTrim (resp.stdout.getD "") == tc.expectedOutput)) = false := by
    rw [hs]; simp [truthy]
  simp only [parseResult, h1, he, hc]
  simp [hs, truthy]

/-- Witness for C9 at expectedOutput = "": even then an empty stdout does not
pass. -/
theorem empty_stdout_is_no_output_witness :
    parseResult { stdout := some "" } { input := "i", expectedOutput := "" } 0 =
      { testNumber := 1, status := .failed,
        message := "Test Case 1 Failed - Wrong Answer",
        input := some "i", expected := some "", actual := some "No output" } :=
  empty_stdout_is_no_output { stdout := some "" } { input := "i", expectedOutput := "" } 0
    rfl rfl rfl

/-- C10: every passed result has actual = expected = the test case's
expectedOutput. -/
theorem passed_actual_eq_expected (resp : Judge0Response) (tc : TestCase) (i : Nat)
    (h : (parseResult resp tc i).status = .passed) :
    (parseResult resp tc i).actual = (parseResult resp tc i).expected ∧
    (parseResult resp tc i).expected = some tc.expectedOutput := by
  obtain ⟨s, hs, hne, ht⟩ := (parseResult_passed_iff resp tc i).mp h
  rw [parseResult_pos resp tc i s hs hne ht]
  simp [ht]

/-- Witness for C10 at a concrete passing input. -/
theorem passed_actual_eq_expected_witness :
    (parseResult { stdout := some "5\n" } { input := "2 3", expectedOutput := "5" } 0).actual
        = (parseResult { stdout := some "5\n" } { input := "2 3", expectedOutput := "5" } 0).expected ∧
    (parseResult { stdout := some "5\n" } { input := "2 3", expectedOutput := "5" } 0).expected
        = some "5" :=
  passed_actual_eq_expected { stdout := some "5\n" } { input := "2 3", expectedOutput := "5" } 0
    (by decide)

lemma resolveList_length (o : Nat → SubmitOutcome) :
    ∀ (i : Nat) (rest : List TestCase), (resolveList o i rest).length = rest.length
  | _, [] => rfl
  | i, _ :: rest => by simp [resolveList, resolveList_length o (i + 1) rest]

lemma resolveList_getD (o : Nat → SubmitOutcome) :
    ∀ (i k : Nat) (rest : List TestCase), k < rest.length →
      (resolveList o i rest).getD k default = resolve o (i + k) (rest.getD k default)
  | _, k, [], h => absurd h (by simp)
  | i, 0, tc :: rest, _ => by simp [resolveList]
  | i, k + 1, tc :: rest, h => by
    simp only [resolveList, List.getD_cons_succ]
    rw [resolveList_getD o (i + 1) k rest (by simpa using h)]
    have harith : i + 1 + k = i + (k + 1) := by omega
    rw [harith]

lemma runLoop_final (o : Nat → SubmitOutcome) (lid : Nat) (fc : String) (n : Nat) :
    ∀ (i : Nat) (rest : List TestCase) (acc : List TestResult),
      (runLoop o lid fc n i rest acc).final = acc ++ resolveList o i rest
  | _, [], acc => by simp [runLoop, resolveList]
  | i, tc :: rest, acc => by
    simp only [runLoop]
    rw [runLoop_final o lid fc n (i + 1) rest (acc ++ [resolve o i tc])]
    simp [resolveList]

lemma runLoop_requests (o : Nat → SubmitOutcome) (lid : Nat) (fc : String) (n : Nat) :
    ∀ (i : Nat) (rest : List TestCase) (acc : List TestResult),
      (runLoop o lid fc n i rest acc).requests
        = rest.map fun tc => { language_id := lid, source_code := fc, stdin := tc.input }
  | _, [], _ => rfl
  | i, tc :: rest, acc => by
    simp only [runLoop, List.map_cons]
    rw [runLoop_requests o lid fc n (i + 1) rest (acc ++ [resolve o i tc])]

lemma runLoop_snaps_length (o : Nat → SubmitOutcome) (lid : Nat) (fc : String) (n : Nat) :
    ∀ (i : Nat) (rest : List TestCase) (acc : List TestResult),
      (runLoop o lid fc n i rest acc).snaps.length = rest.length
  | _, [], _ => rfl
  | i, tc :: rest, acc => by
    simp only [runLoop, List.length_cons]
    rw [runLoop_snaps_length o lid fc n (i + 1) rest (acc ++ [resolve o i tc])]

lemma runLoop_snaps_getD (o : Nat → SubmitOutcome) (lid : Nat) (fc : String) (n : Nat) :
    ∀ (i k : Nat) (rest : List TestCase) (acc : List TestResult),
      acc.length = i → k < rest.length →
      (runLoop o lid fc n i rest acc).snaps.getD k []
        = (acc ++ resolveList o i rest).take (i + k + 1) ++ waitingSlots (i + k + 1) n
  | _, k, [], _, _, h => absurd h (by simp)
  | i, 0, tc :: rest, acc, hacc, _ => by
    simp only [runLoop, List.getD_cons_zero]
    have h1 : acc ++ resolveList o i (tc :: rest)
        = (acc ++ [resolve o i tc]) ++ resolveList o (i + 1) rest := by
      simp [resolveList]
    have hlen : (acc ++ [resolve o i tc]).length = i + 0 + 1 := by simp [hacc]
    rw [h1, ← hlen, List.take_append_of_le_length (Nat.le_refl _), List.take_length]
  | i, k + 1, tc :: rest, acc, hacc, h => by
    simp only [runLoop, List.getD_cons_succ]
    rw [runLoop_snaps_getD o lid fc n (i + 1) k rest (acc ++ [resolve o i tc])
      (by simp [hacc]) (by simpa using h)]
    have h1 : acc ++ resolveList o i (tc :: rest)
        = (acc ++ [resolve o i tc]) ++ resolveList o (i + 1) rest := by
      simp [resolveList]
    have harith : i + 1 + k + 1 = i + (k + 1) + 1 := by omega
    rw [h1, harith]

lemma runCode_finalResults (o : Nat → SubmitOutcome) (lang : Language) (code : String)
    (ts : TestSuite) :
    (runCode o lang code (some ts)).finalResults = some (resolveList o 0 ts.testCases) := by
  simp [runCode, runLoop_final]

lemma runCode_submissions (o : Nat → SubmitOutcome) (lang : Language) (code : String)
    (ts : TestSuite) :
    (runCode o lang code (some ts)).submissions
      = ts.testCases.map fun tc =>
          { language_id := languageIds lang, source_code := code ++ "\n" ++ ts.testCode
            stdin := tc.input } := by
  simp [runCode, runLoop_requests]

lemma runCode_snapshots_length (o : Nat → SubmitOutcome) (lang : Language) (code : String)
    (ts : TestSuite) :
    (runCode o lang code (some ts)).snapshots.length = ts.testCases.length + 1 := by
  simp [runCode, runLoop_snaps_length]

lemma runCode_snapshots_zero (o : Nat → SubmitOutcome) (lang : Language) (code : String)
    (ts : TestSuite) :
    (runCode o lang code (some ts)).snapshots.getD 0 []
      = (List.range ts.testCases.length).map runningSlot := by
  simp [runCode]

lemma runCode_snapshots_succ (o : Nat → SubmitOutcome) (lang : Language) (code : String)
    (ts : TestSuite) (k : Nat) (hk : k < ts.testCases.length) :
    (runCode o lang code (some ts)).snapshots.getD (k + 1) []
      = (resolveList o 0 ts.testCases).take (k + 1) ++ waitingSlots (k + 1) ts.testCases.length := by
  simp only [runCode, List.getD_cons_succ]
  rw [runLoop_snaps_getD o (languageIds lang) (code ++ "\n" ++ ts.testCode) ts.testCases.length
    0 k ts.testCases [] rfl hk]
  simp

lemma parseResult_testNumber (r : Judge0Response) (tc : TestCase) (i : Nat) :
    (parseResult r tc i).testNumber = i + 1 := by
  simp only [parseResult]
  split
  · rfl
  · split
    · rfl
    · split <;> rfl

lemma parseResult_status_cases (r : Judge0Response) (tc : TestCase) (i : Nat) :
    (parseResult r tc i).status = .passed ∨ (parseResult r tc i).status = .failed := by
  simp only [parseResult]
  split
  · exact Or.inl rfl
  · split
    · exact Or.inr rfl
    · split <;> exact Or.inr rfl

lemma resolve_testNumber (o : Nat → SubmitOutcome) (i : Nat) (tc : TestCase) :
    (resolve o i tc).testNumber = i + 1 := by
  unfold resolve
  cases o i with
  | ok resp => exact parseResult_testNumber resp tc i
  | err m => rfl

lemma resolve_status_ne_running (o : Nat → SubmitOutcome) (i : Nat) (tc : TestCase) :
    (resolve o i tc).status ≠ .running := by
  unfold resolve
  cases o i with
  | ok resp =>
    rcases parseResult_status_cases resp tc i with h1 | h1 <;> simp [h1]
  | err m => simp [apiErrorResult]

lemma waitingSlots_length (start n : Nat) : (waitingSlots start n).length = n - start := by
  simp [waitingSlots]

lemma waitingSlots_getD (start n k : Nat) (h : k < n - start) :
    (waitingSlots start n).getD k default
      = { testNumber := start + k + 1, status := .running, message := "Waiting..." } := by
  simp [waitingSlots, List.getD_eq_getElem?_getD, List.getElem?_range h]

lemma snap_zero_slot (o : Nat → SubmitOutcome) (lang : Language) (code : String)
    (ts : TestSuite) (j : Nat) (hj : j < ts.testCases.length) :
    ((runCode o lang code (some ts)).snapshots.getD 0 []).getD j default = runningSlot j := by
  rw [runCode_snapshots_zero]
  simp [List.getD_eq_getElem?_getD, List.getElem?_range hj]

lemma take_resolveList_length (o : Nat → SubmitOutcome) (ts : TestSuite) (k : Nat)
    (hk : k < ts.testCases.length) :
    ((resolveList o 0 ts.testCases).take (k + 1)).length = k + 1 := by
  simp only [List.length_take, resolveList_length]
  omega

lemma snap_succ_slot_resolved (o : Nat → SubmitOutcome) (lang : Language) (code : String)
    (ts : TestSuite) (k j : Nat) (hk : k < ts.testCases.length) (hj : j < k + 1) :
    ((runCode o lang code (some ts)).snapshots.getD (k + 1) []).getD j default
      = (resolveList o 0 ts.testCases).getD j default := by
  rw [runCode_snapshots_succ o lang code ts k hk]
  rw [List.getD_append _ _ _ _ (by rw [take_resolveList_length o ts k hk]; omega)]
  simp [List.getD_eq_getElem?_getD, List.getElem?_take_of_lt hj]

lemma snap_succ_slot_waiting (o : Nat → SubmitOutcome) (lang : Language) (code : String)
    (ts : TestSuite) (k j : Nat) (hk : k < ts.testCases.length) (hjw : k + 1 ≤ j)
    (hj : j < ts.testCases.length) :
    ((runCode o lang code (some ts)).snapshots.getD (k + 1) []).getD j default
      = { testNumber := j + 1, status := .running, message := "Waiting..." } := by
  rw [runCode_snapshots_succ o lang code ts k hk]
  rw [List.getD_append_right _ _ _ _ (by rw [take_resolveList_length o ts k hk]; omega)]
  rw [take_resolveList_length o ts k hk]
  rw [waitingSlots_getD (k + 1) ts.testCases.length (j - (k + 1)) (by omega)]
  have harith : k + 1 + (j - (k + 1)) + 1 = j + 1 := by omega
  rw [harith]

lemma snap_zero_length (o : Nat → SubmitOutcome) (lang : Language) (code : String)
    (ts : TestSuite) :
    ((runCode o lang code (some ts)).snapshots.getD 0 []).length = ts.testCases.length := by
  rw [runCode_snapshots_zero]
  simp

lemma snap_succ_length (o : Nat → SubmitOutcome) (lang : Language) (code : String)
    (ts : TestSuite) (k : Nat) (hk : k < ts.testCases.length) :
    ((runCode o lang code (some ts)).snapshots.getD (k + 1) []).length = ts.testCases.length := by
  rw [runCode_snapshots_succ o lang code ts k hk]
  simp only [List.length_append, take_resolveList_length o ts k hk, waitingSlots_length]
  omega

/-- C3: a transport failure on test case `i` does not abort the run — the
final RunState still resolves all N slots, slot `i` holds the api-error
failure carrying the failure's message (no input/expected/actual), every test
case is still submitted, and every other slot with a successful response is
classified normally. -/
theorem transport_failure_does_not_abort (o : Nat → SubmitOutcome) (lang : Language)
    (code : String) (ts : TestSuite) (i : Nat) (msg : String)
    (hi : i < ts.testCases.length) (hfail : o i = .err msg) :
    (runCode o lang code (some ts)).finalResults = some (resolveList o 0 ts.testCases) ∧
    (resolveList o 0 ts.testCases).length = ts.testCases.length ∧
    (resolveList o 0 ts.testCases).getD i default =
      { testNumber := i + 1, status := .failed,
        message := "Test Case " ++ toString (i + 1) ++ " Failed - API Error",
        error := some msg } ∧
    (runCode o lang code (some ts)).submissions.length = ts.testCases.length ∧
    ∀ j, j < ts.testCases.length → ∀ resp, o j = .ok resp →
      (resolveList o 0 ts.testCases).getD j default
        = parseResult resp (ts.testCases.getD j default) j := by
  refine ⟨runCode_finalResults o lang code ts, resolveList_length o 0 ts.testCases, ?_, ?_, ?_⟩
  · rw [resolveList_getD o 0 i ts.testCases hi]
    simp only [Nat.zero_add]
    unfold resolve
    rw [hfail]
    rfl
  · rw [runCode_submissions o lang code ts]
    simp
  · intro j hj resp hok
    rw [resolveList_getD o 0 j ts.testCases hj]
    simp only [Nat.zero_add]
    unfold resolve
    rw [hok]

/-- Witness for C3: a two-case run where the first submission fails with
"network down" and the second succeeds. -/
theorem transport_failure_does_not_abort_witness :
    (runCode oW .python "C" (some tsW)).finalResults = some (resolveList oW 0 tsW.testCases) ∧
    (resolveList oW 0 tsW.testCases).getD 0 default =
      { testNumber := 1, status := .failed,
        message := "Test Case 1 Failed - API Error", error := some "network down" } ∧
    (resolveList oW 0 tsW.testCases).getD 1 default
      = parseResult { stdout := some "0\n" } (tsW.testCases.getD 1 default) 1 :=
  have h := transport_failure_does_not_abort oW .python "C" tsW 0 "network down"
    (by decide) rfl
  ⟨h.1, h.2.2.1, h.2.2.2.2 1 (by decide) { stdout := some "0\n" } rfl⟩

/-- C4: at every published snapshot and in the final state, the RunState has
exactly one slot per test case and slot `j` carries testNumber `j + 1`. -/
theorem run_state_length_and_test_numbers (o : Nat → SubmitOutcome) (lang : Language)
    (code : String) (ts : TestSuite) :
    (∀ s ∈ (runCode o lang code (some ts)).snapshots,
      s.length = ts.testCases.length ∧
      ∀ j, j < ts.testCases.length → (s.getD j default).testNumber = j + 1) ∧
    ∀ fin, (runCode o lang code (some ts)).finalResults = some fin →
      fin.length = ts.testCases.length ∧
      ∀ j, j < ts.testCases.length → (fin.getD j default).testNumber = j + 1 := by
  have hfinNum : ∀ j, j < ts.testCases.length →
      ((resolveList o 0 ts.testCases).getD j default).testNumber = j + 1 := by
    intro j hj
    rw [resolveList_getD o 0 j ts.testCases hj]
    simp only [Nat.zero_add]
    exact resolve_testNumber o j (ts.testCases.getD j default)
  constructor
  · intro s hs
    obtain ⟨k, hk, hsk⟩ := List.mem_iff_getElem.mp hs
    rw [runCode_snapshots_length o lang code ts] at hk
    have hsd : s = (runCode o lang code (some ts)).snapshots.getD k [] := by
      rw [List.getD_eq_getElem _ _ (by rw [runCode_snapshots_length o lang code ts]; omega)]
      exact hsk.symm
    subst hsd
    cases k with
    | zero =>
      refine ⟨snap_zero_length o lang code ts, ?_⟩
      intro j hj
      rw [snap_zero_slot o lang code ts j hj]
      rfl
    | succ k =>
      have hk2 : k < ts.testCases.length := by omega
      refine ⟨snap_succ_length o lang code ts k hk2, ?_⟩
      intro j hj
      by_cases hjk : j < k + 1
      · rw [snap_succ_slot_resolved o lang code ts k j hk2 hjk]
        exact hfinNum j hj
      · rw [snap_succ_slot_waiting o lang code ts k j hk2 (by omega) hj]
  · intro fin hfin
    rw [runCode_finalResults o lang code ts] at hfin
    cases hfin
    exact ⟨resolveList_length o 0 ts.testCases, hfinNum⟩

/-- Witness for C4: length and first test number of an intermediate snapshot
and of the final state of a concrete two-case run. -/
theorem run_state_length_and_test_numbers_witness :
    ((runCode oW .python "C" (some tsW)).snapshots.getD 1 []).length = tsW.testCases.length ∧
    (((runCode oW .python "C" (some tsW)).snapshots.getD 1 []).getD 0 default).testNumber = 1 ∧
    (resolveList oW 0 tsW.testCases).length = tsW.testCases.length :=
  have h1 := (run_state_length_and_test_numbers oW .python "C" tsW).1
    ((runCode oW .python "C" (some tsW)).snapshots.getD 1 []) (by decide)
  have h2 := (run_state_length_and_test_numbers oW .python "C" tsW).2
    (resolveList oW 0 tsW.testCases) rfl
  ⟨h1.1, h1.2 0 (by decide), h2.1⟩

/-- C5: slots resolve in index order, each written exactly once by its own
iteration — in snapshot `k` exactly the slots below `k` are resolved, each
already holding its final value, and all others are still running. -/
theorem slots_resolve_in_order_and_stay (o : Nat → SubmitOutcome) (lang : Language)
    (code : String) (ts : TestSuite) :
    (runCode o lang code (some ts)).finalResults = some (resolveList o 0 ts.testCases) ∧
    (runCode o lang code (some ts)).snapshots.length = ts.testCases.length + 1 ∧
    ∀ k, k < ts.testCases.length + 1 → ∀ j, j < ts.testCases.length →
      ((j < k →
        ((runCode o lang code (some ts)).snapshots.getD k []).getD j default
            = (resolveList o 0 ts.testCases).getD j default ∧
        (((runCode o lang code (some ts)).snapshots.getD k []).getD j default).status
            ≠ .running) ∧
      (k ≤ j →
        (((runCode o lang code (some ts)).snapshots.getD k []).getD j default).status
            = .running)) := by
  refine ⟨runCode_finalResults o lang code ts, runCode_snapshots_length o lang code ts, ?_⟩
  intro k hk j hj
  constructor
  · intro hjk
    cases k with
    | zero => omega
    | succ k =>
      have hk2 : k < ts.testCases.length := by omega
      rw [snap_succ_slot_resolved o lang code ts k j hk2 hjk]
      refine ⟨rfl, ?_⟩
      rw [resolveList_getD o 0 j ts.testCases hj]
      simp only [Nat.zero_add]
      exact resolve_status_ne_running o j (ts.testCases.getD j default)
  · intro hkj
    cases k with
    | zero =>
      rw [snap_zero_slot o lang code ts j hj]
      rfl
    | succ k =>
      have hk2 : k < ts.testCases.length := by omega
      rw [snap_succ_slot_waiting o lang code ts k j hk2 hkj hj]

/-- Witness for C5: in the concrete two-case run, snapshot 1 has slot 0
resolved to its final value and slot 1 still running. -/
theorem slots_resolve_in_order_and_stay_witness :
    (((runCode oW .python "C" (some tsW)).snapshots.getD 1 []).getD 0 default).status
        ≠ .running ∧
    ((runCode oW .python "C" (some tsW)).snapshots.getD 1 []).getD 0 default
        = (resolveList oW 0 tsW.testCases).getD 0 default ∧
    (((runCode oW .python "C" (some tsW)).snapshots.getD 1 []).getD 1 default).status
        = .running := by
  have h := (slots_resolve_in_order_and_stay oW .python "C" tsW).2.2
  exact ⟨((h 1 (by decide) 0 (by decide)).1 (by decide)).2,
    ((h 1 (by decide) 0 (by decide)).1 (by decide)).1,
    (h 1 (by decide) 1 (by decide)).2 (by decide)⟩

/-- C6: a run with no resolvable test suite alerts immediately, performs no
submissions, publishes no result snapshots and never touches the running
flag. -/
theorem no_test_suite_aborts (o : Nat → SubmitOutcome) (lang : Language) (code : String) :
    runCode o lang code none =
      { alerted := true, setRunningCalls := [], submissions := [], snapshots := []
        finalResults := none } := rfl

/-- C7: the combined program is `userCode ++ "\n" ++ harnessCode`, and every
submission of a run carries it as source, the language's fixed numeric id,
and the matching test case's input as stdin. -/
theorem submissions_carry_combined_program (o : Nat → SubmitOutcome) (lang : Language)
    (code : String) (ts : TestSuite) :
    (runCode o lang code (some ts)).submissions =
      ts.testCases.map fun tc =>
        { language_id := languageIds lang
          source_code := code ++ "\n" ++ ts.testCode
          stdin := tc.input } :=
  runCode_submissions o lang code ts

end Codu
